import Mathlib

/-!
Verification of the wallet-ledger and verification-pipeline core of the
social-media-engagement marketplace backend.

The definitions below are shallow embeddings of the Python source:
money amounts (Django `DecimalField`) are modelled as `Int`, confidence
scores (Python floats in `[0,1]`) as `ℚ`, raised exceptions as explicit
error components, and the per-user row lock as plain sequential state
passing (all ledger writes for one user are serialized by the lock, so a
single-user state machine captures the per-user ledger exactly).
-/

namespace Engagement

/-- Decidable equality for `Except`, so that concrete runs of the fallible
operations can be checked by evaluation. -/
instance {ε α : Type} [DecidableEq ε] [DecidableEq α] : DecidableEq (Except ε α) :=
  fun x y =>
    match x, y with
    | .error a, .error b =>
      decidable_of_iff (a = b) ⟨fun h => by rw [h], fun h => by injection h⟩
    | .error _, .ok _ => isFalse fun h => Except.noConfusion h
    | .ok _, .error _ => isFalse fun h => Except.noConfusion h
    | .ok a, .ok b =>
      decidable_of_iff (a = b) ⟨fun h => by rw [h], fun h => by injection h⟩

/-! ## Ledger store (src/backend/wallets/models.py) -/

/-- One row of the `wallet_transactions` table (model `WalletTransaction`),
restricted to the fields the claims are about. -/
structure LedgerEntry where
  transaction_type : String
  amount : Int
  balance_before : Int
  balance_after : Int
  reference : String
  description : String
deriving DecidableEq, Repr

/-- Per-user wallet state: the cached `user.wallet_balance` column together
with the user's ledger entries in creation order. -/
structure WalletState where
  wallet_balance : Int
  entries : List LedgerEntry
deriving DecidableEq, Repr

/-- Outcome of one ledger write attempt: the (possibly unchanged) wallet
state, the entry created (if any), and the raised error message (if any).
A Django `transaction.atomic` block rolls back on an exception, so the
error case returns the input state unchanged. -/
structure LedgerResult where
  state : WalletState
  entry : Option LedgerEntry
  error : Option String
deriving DecidableEq, Repr

/-- Embeds `WalletTransaction.create_transaction`: reads the cached balance
under the row lock, computes `balance_after = balance_before + amount`,
raises `ValueError("Insufficient wallet balance")` when the new balance
would be negative, otherwise appends the entry and updates the cache. -/
def create_transaction (s : WalletState) (transaction_type : String) (amount : Int)
    (reference description : String) : LedgerResult :=
  let balance_before := s.wallet_balance
  let balance_after := balance_before + amount
  if balance_after < 0 then
    { state := s, entry := none, error := some "Insufficient wallet balance" }
  else
    let e : LedgerEntry :=
      { transaction_type := transaction_type, amount := amount,
        balance_before := balance_before, balance_after := balance_after,
        reference := reference, description := description }
    { state := { wallet_balance := balance_after, entries := s.entries ++ [e] },
      entry := some e, error := none }

/-- Replays a list of entries from a starting balance by summing the signed
amounts, as the spec's replay property prescribes. -/
def replay (b0 : Int) (es : List LedgerEntry) : Int :=
  es.foldl (fun b e => b + e.amount) b0

/-- The spec's ledger invariant, checked entry by entry from a starting
balance `b`: each entry's `balance_before` equals the running balance, its
`balance_after` equals `balance_before + amount`, no `balance_after` is
negative, and the running balance advances to `balance_after`. -/
def chainFrom (b : Int) : List LedgerEntry → Bool
  | [] => true
  | e :: rest =>
    decide (e.balance_before = b) && decide (e.balance_after = e.balance_before + e.amount)
      && decide (0 ≤ e.balance_after) && chainFrom e.balance_after rest

/-- Embeds `ManualReviewService._process_approved_job`
(src/backend/verification/services.py): credits the earner's wallet with the
reward using reference `job_completion_<job id>`; its `try/except` swallows
any ledger error, leaving the state unchanged in that case. -/
def process_approved_job (s : WalletState) (job_id : String) (reward_amount : Int) :
    WalletState :=
  (create_transaction s "credit" reward_amount ("job_completion_" ++ job_id)
    ("Payment for completing job " ++ job_id)).state

/-! ## Campaign funding (src/backend/campaigns/views.py, `CampaignViewSet.fund`) -/

/-- The campaign fields read and written by the `fund` action. -/
structure Campaign where
  id : String
  title : String
  status : String
  total_budget : Int
  reserved_funds : Int
deriving DecidableEq, Repr

/-- Embeds `CampaignViewSet.fund`: after the ownership and draft-status
guards and the balance check, it writes a `hold` entry directly with
`WalletTransaction.objects.create` (bypassing `create_transaction`), setting
`amount := total_budget`, `balance_before := user_balance`,
`balance_after := user_balance - total_budget`, then activates the campaign
and decreases the cached balance. -/
def fund (is_owner : Bool) (user : WalletState) (campaign : Campaign) :
    Except String (WalletState × Campaign × LedgerEntry) :=
  if !is_owner then
    .error "You can only fund your own campaigns"
  else if campaign.status ≠ "draft" then
    .error "Only draft campaigns can be funded"
  else if user.wallet_balance < campaign.total_budget then
    .error "Insufficient wallet balance"
  else
    let e : LedgerEntry :=
      { transaction_type := "hold", amount := campaign.total_budget,
        balance_before := user.wallet_balance,
        balance_after := user.wallet_balance - campaign.total_budget,
        reference := "CAMPAIGN_FUND_" ++ campaign.id,
        description := "Fund campaign: " ++ campaign.title }
    .ok ({ wallet_balance := user.wallet_balance - campaign.total_budget,
           entries := user.entries ++ [e] },
         { campaign with status := "active", reserved_funds := campaign.total_budget },
         e)

/-- The hold entry that `fund` writes for a promoter with balance 500 and a
campaign with total budget 300. -/
def c1_hold_entry : LedgerEntry :=
  { transaction_type := "hold", amount := 300, balance_before := 500,
    balance_after := 200, reference := "CAMPAIGN_FUND_c1",
    description := "Fund campaign: Launch" }

/-! ## Withdrawal lifecycle (src/backend/wallets/models.py, model `Withdrawal`) -/

/-- The `Withdrawal` fields the lifecycle methods read and write. -/
structure Withdrawal where
  id : String
  status : String
  amount : Int
  admin_notes : String
  payment_provider_id : String
  transaction_id : String
deriving DecidableEq, Repr

/-- Embeds `Withdrawal.complete`: raises unless the status is
`processing`, otherwise marks the withdrawal `completed` and records the
external ids (`x or ''` in Python maps `None` to the empty string). -/
def Withdrawal.complete (w : Withdrawal)
    (payment_provider_id transaction_id : Option String) : Except String Withdrawal :=
  if w.status ≠ "processing" then
    .error "Withdrawal must be processing to complete"
  else
    .ok { w with status := "completed",
                 payment_provider_id := payment_provider_id.getD "",
                 transaction_id := transaction_id.getD "" }

/-- Outcome of `Withdrawal.fail`: the withdrawal and wallet after the call
plus the raised error, if any. `fail` is not wrapped in an atomic block, so
the status write survives even if the refund write were to raise. -/
structure WithdrawalFailResult where
  withdrawal : Withdrawal
  wallet : WalletState
  error : Option String
deriving DecidableEq, Repr

/-- Embeds `Withdrawal.fail`: raises unless the status is `pending` or
`processing`; otherwise marks the withdrawal `failed`, saves it, and then
unconditionally writes a `refund` ledger entry of `+amount` with reference
`withdrawal_refund_<id>` — whether or not a debit was ever taken. -/
def Withdrawal.fail (w : Withdrawal) (wallet : WalletState) (reason : String) :
    WithdrawalFailResult :=
  if ¬ (w.status = "pending" ∨ w.status = "processing") then
    { withdrawal := w, wallet := wallet,
      error := some "Withdrawal must be pending or processing to fail" }
  else
    let w' := { w with status := "failed", admin_notes := reason }
    let res := create_transaction wallet "refund" w.amount
      ("withdrawal_refund_" ++ w.id) ("Refund for failed withdrawal " ++ w.id)
    { withdrawal := w', wallet := res.state, error := res.error }

/-! ## Verification pipeline (src/backend/verification/services.py) -/

/-- The dictionary each verification method adapter returns, restricted to
the keys the orchestrator reads. -/
structure MethodResult where
  confidence : ℚ
  fraud_indicators : List String
deriving DecidableEq, Repr

/-- The rule fields `_run_verification_pipeline` reads: the ordered method
list and the two decision thresholds (`rule.pass_threshold`,
`rule.manual_review_threshold`). -/
structure VerificationRule where
  verification_methods : List String
  pass_threshold : ℚ
  manual_review_threshold : ℚ
deriving DecidableEq, Repr

/-- State of the method loop in `_run_verification_pipeline` when it exits:
the collected results, the running sum `overall_confidence`, the
concatenated fraud indicators, and the methods left unconsumed when the
loop `break`s early (empty when the loop exhausted the list). -/
structure PipelineLoopState where
  results : List MethodResult
  confidence_sum : ℚ
  fraud_indicators : List String
  remaining : List String
deriving DecidableEq, Repr

/-- Embeds the `for method in verification_methods` loop of
`_run_verification_pipeline`. `run m = none` models both an unknown method
and a method whose adapter raised (the `except` arm `continue`s either
way); a produced result is appended, its confidence added to the running
sum, its indicators concatenated, and the loop `break`s as soon as the
result's own confidence reaches `pass_threshold`. -/
def pipelineLoop (run : String → Option MethodResult) (pass_threshold : ℚ) :
    List String → List MethodResult → ℚ → List String → PipelineLoopState
  | [], results, confidence_sum, fis => ⟨results, confidence_sum, fis, []⟩
  | m :: rest, results, confidence_sum, fis =>
    match run m with
    | none => pipelineLoop run pass_threshold rest results confidence_sum fis
    | some r =>
      if r.confidence ≥ pass_threshold then
        ⟨results ++ [r], confidence_sum + r.confidence, fis ++ r.fraud_indicators, rest⟩
      else
        pipelineLoop run pass_threshold rest (results ++ [r])
          (confidence_sum + r.confidence) (fis ++ r.fraud_indicators)

/-- The dictionary `_run_verification_pipeline` returns, restricted to the
keys the claims are about. -/
structure PipelineOutcome where
  status : String
  confidence : ℚ
  fraud_indicators : List String
deriving DecidableEq, Repr

/-- Embeds `_run_verification_pipeline` after the loop: divides the running
sum by `len(results)` when results were collected (leaving the initial 0.0
otherwise) and thresholds the result — `verified` at `pass_threshold`,
`manual_review` at `manual_review_threshold`, else `rejected`. -/
def run_verification_pipeline (rule : VerificationRule)
    (run : String → Option MethodResult) : PipelineOutcome :=
  let st := pipelineLoop run rule.pass_threshold rule.verification_methods [] 0 []
  let overall : ℚ :=
    if st.results.isEmpty then st.confidence_sum
    else st.confidence_sum / (st.results.length : ℚ)
  { status :=
      if overall ≥ rule.pass_threshold then "verified"
      else if overall ≥ rule.manual_review_threshold then "manual_review"
      else "rejected",
    confidence := overall,
    fraud_indicators := st.fraud_indicators }

/-- The results actually collected by a pipeline run. -/
def pipelineResults (rule : VerificationRule) (run : String → Option MethodResult) :
    List MethodResult :=
  (pipelineLoop run rule.pass_threshold rule.verification_methods [] 0 []).results

/-- Arithmetic mean, following the spec's words (`mean(confidences
collected)`); meaningful for nonempty lists. -/
def specMean (l : List ℚ) : ℚ := l.sum / (l.length : ℚ)

/-- The spec's decision function: `verified` iff the confidence reaches
`pass_threshold`, otherwise `manual_review` iff it reaches
`manual_review_threshold`, otherwise `rejected`. -/
def specDecision (rule : VerificationRule) (confidence : ℚ) : String :=
  if confidence ≥ rule.pass_threshold then "verified"
  else if confidence ≥ rule.manual_review_threshold then "manual_review"
  else "rejected"

/-- Embeds `VerificationRuleCreateSerializer.validate_thresholds`
(src/backend/verification/serializers.py): applies the defaults 0.8 / 0.6 /
0.4 and rejects the payload unless
`fail_threshold <= manual_review_threshold <= pass_threshold`. -/
def validate_thresholds (pass_threshold manual_review_threshold fail_threshold : Option ℚ) :
    Except String (Option ℚ × Option ℚ × Option ℚ) :=
  let p := pass_threshold.getD (4/5)
  let m := manual_review_threshold.getD (3/5)
  let f := fail_threshold.getD (2/5)
  if ¬ (f ≤ m ∧ m ≤ p) then
    .error "Thresholds must be ordered: fail_threshold <= manual_review_threshold <= pass_threshold"
  else
    .ok (pass_threshold, manual_review_threshold, fail_threshold)

/-! ## Verification orchestration boundary (`VerificationService.verify_job_attempt`) -/

/-- The session fields `verify_job_attempt` persists from the pipeline
result dictionary: `session.status = result['status']` and
`session.confidence = result['confidence']`. -/
structure VerificationSession where
  status : String
  confidence : ℚ
deriving DecidableEq, Repr

/-- Environment of one `verify_job_attempt` call. Each database step that
can raise is an `Except` value; `Except.error` models a raised exception
reaching the enclosing `try`. `rule_lookup = .ok none` models
`VerificationRule.DoesNotExist` (absorbed to `None` by
`_get_verification_rule`). -/
structure VerifyEnv where
  rule_lookup : Except String (Option VerificationRule)
  run : String → Option MethodResult
  session_create : Except String Unit
  session_save : Except String Unit
  attempt_save : Except String Unit

/-- The dictionary `verify_job_attempt` returns, restricted to the keys the
claims are about (`reason` is empty on the success path, which returns the
pipeline dictionary without a `reason` key). -/
structure VerifyResult where
  status : String
  confidence : ℚ
  reason : String
deriving DecidableEq, Repr

/-- The dictionary built by the `except` handler and the no-rule branch of
`verify_job_attempt`: status `failed`, confidence 0.0. -/
def failedResult (reason : String) : VerifyResult :=
  { status := "failed", confidence := 0, reason := reason }

/-- Embeds `VerificationService.verify_job_attempt`: resolves the rule
(returning the failed dictionary when none exists), creates the session,
runs the pipeline, persists the session and the job attempt, and converts
any raised exception into the failed dictionary via the enclosing
`try/except`. -/
def verify_job_attempt (env : VerifyEnv) : VerifyResult :=
  match env.rule_lookup with
  | .error e => failedResult e
  | .ok none => failedResult "No verification rule found"
  | .ok (some rule) =>
    match env.session_create with
    | .error e => failedResult e
    | .ok _ =>
      let r := run_verification_pipeline rule env.run
      match env.session_save with
      | .error e => failedResult e
      | .ok _ =>
        match env.attempt_save with
        | .error e => failedResult e
        | .ok _ => { status := r.status, confidence := r.confidence, reason := "" }

/-- The session state persisted by `verify_job_attempt`, paired with the
rule used: `some` exactly when the session was created and saved (the
session's fields are copied from the pipeline result dictionary; a later
failure while saving the job attempt does not undo the committed session
row, as no transaction wraps the flow). -/
def verify_session (env : VerifyEnv) : Option (VerificationRule × VerificationSession) :=
  match env.rule_lookup with
  | .error _ => none
  | .ok none => none
  | .ok (some rule) =>
    match env.session_create with
    | .error _ => none
    | .ok _ =>
      match env.session_save with
      | .error _ => none
      | .ok _ =>
        some (rule, { status := (run_verification_pipeline rule env.run).status,
                      confidence := (run_verification_pipeline rule env.run).confidence })

/-! ## Concrete inputs used to exercise the definitions -/

/-- A rule matching the spec's short-circuit scenario: pass threshold 0.8,
manual-review threshold 0.6, methods `deterministic` then `tokenized`. -/
def ruleTwoMethods : VerificationRule := ⟨["deterministic", "tokenized"], 4/5, 3/5⟩

/-- Adapters for `ruleTwoMethods`: `deterministic` scores 0.9 and
`tokenized` scores 0.5. -/
def runTwoMethods : String → Option MethodResult := fun m =>
  if m = "deterministic" then some ⟨9/10, []⟩
  else if m = "tokenized" then some ⟨1/2, []⟩
  else none

/-- A three-method rule with pass threshold 0.8 and manual-review
threshold 0.5. -/
def ruleThreeMethods : VerificationRule := ⟨["a", "b", "c"], 4/5, 1/2⟩

/-- Adapters for `ruleThreeMethods`: confidences 0, 0.9 and 0.3. -/
def runThreeMethods : String → Option MethodResult := fun m =>
  if m = "a" then some ⟨0, []⟩
  else if m = "b" then some ⟨9/10, []⟩
  else if m = "c" then some ⟨3/10, []⟩
  else none

/-- A one-method rule with positive thresholds 0.8 / 0.6. -/
def ruleOneMethod : VerificationRule := ⟨["a"], 4/5, 3/5⟩

/-- Adapters in which every method fails to produce a result. -/
def runAllFail : String → Option MethodResult := fun _ => none

/-- An environment in which no active rule matches the attempt's platform
and engagement type. -/
def envNoRule : VerifyEnv := ⟨.ok none, runAllFail, .ok (), .ok (), .ok ()⟩

/-- An environment with a rule, succeeding database steps, and the
`runTwoMethods` adapters. -/
def envTwoMethods : VerifyEnv := ⟨.ok (some ruleTwoMethods), runTwoMethods, .ok (), .ok (), .ok ()⟩

/-! ## Helper lemmas -/

/-- Appending one entry to a valid chain is valid exactly when the new
entry starts at the replayed balance, is internally consistent, and keeps
the balance nonnegative. -/
theorem chainFrom_concat (e : LedgerEntry) :
    ∀ (es : List LedgerEntry) (b : Int), chainFrom b es = true →
      chainFrom b (es ++ [e]) =
        (decide (e.balance_before = replay b es) &&
          decide (e.balance_after = e.balance_before + e.amount) &&
          decide (0 ≤ e.balance_after)) := by
  intro es
  induction es with
  | nil =>
    intro b _
    simp [chainFrom, replay]
  | cons x rest ih =>
    intro b h
    simp only [chainFrom, Bool.and_eq_true, decide_eq_true_eq] at h
    obtain ⟨⟨⟨h1, h2⟩, h3⟩, h4⟩ := h
    have hx : x.balance_after = b + x.amount := by rw [h2, h1]
    have h3' : (0 : Int) ≤ b + x.amount := hx ▸ h3
    have h4' : chainFrom (b + x.amount) rest = true := hx ▸ h4
    simp [chainFrom, replay, h1, h2, h3, hx, h3', ih (b + x.amount) h4']

/-- `create_transaction` preserves the spec's ledger invariant: if the
cached balance replays the entries from `b0` and the entries form a valid
chain, the same holds after the call (trivially so when the call is
rejected, since the state is unchanged). -/
theorem create_transaction_preserves_ledger (s : WalletState) (t : String) (a : Int)
    (r d : String) (b0 : Int) (hc : chainFrom b0 s.entries = true)
    (hb : s.wallet_balance = replay b0 s.entries) :
    (create_transaction s t a r d).state.wallet_balance
        = replay b0 (create_transaction s t a r d).state.entries ∧
    chainFrom b0 (create_transaction s t a r d).state.entries = true := by
  by_cases hneg : s.wallet_balance + a < 0
  · refine ⟨?_, ?_⟩
    · simpa [create_transaction, hneg] using hb
    · simpa [create_transaction, hneg] using hc
  · push_neg at hneg
    constructor
    · simp [create_transaction, not_lt.mpr hneg, replay, List.foldl_append]
      simp [replay] at hb
      omega
    · simp only [create_transaction, if_neg (not_lt.mpr hneg)]
      rw [chainFrom_concat _ _ _ hc]
      simp [← hb, hneg]

/-- The loop's running `overall_confidence` accumulator equals the sum of
the confidences of the results collected so far. -/
theorem pipelineLoop_confidence_sum (run : String → Option MethodResult) (pt : ℚ) :
    ∀ (ms : List String) (results : List MethodResult) (cs : ℚ) (fis : List String),
      cs = (results.map MethodResult.confidence).sum →
      (pipelineLoop run pt ms results cs fis).confidence_sum
        = ((pipelineLoop run pt ms results cs fis).results.map MethodResult.confidence).sum := by
  intro ms
  induction ms with
  | nil =>
    intro results cs fis h
    simpa [pipelineLoop] using h
  | cons m rest ih =>
    intro results cs fis h
    simp only [pipelineLoop]
    cases hr : run m with
    | none => exact ih results cs fis h
    | some r =>
      by_cases hc : r.confidence ≥ pt
      · simp [hc, h]
      · simp only [if_neg hc]
        exact ih _ _ _ (by simp [h])

/-- When every listed method fails to produce a result, the loop collects
nothing and consumes the whole method list. -/
theorem pipelineLoop_all_none (run : String → Option MethodResult) (pt : ℚ) :
    ∀ (ms : List String) (results : List MethodResult) (cs : ℚ) (fis : List String),
      (∀ m ∈ ms, run m = none) →
      pipelineLoop run pt ms results cs fis = ⟨results, cs, fis, []⟩ := by
  intro ms
  induction ms with
  | nil => intro results cs fis _; rfl
  | cons m rest ih =>
    intro results cs fis h
    have hm : run m = none := h m (by simp)
    simp only [pipelineLoop, hm]
    exact ih results cs fis (fun x hx => h x (by simp [hx]))

/-- Loop stop characterization: all collected results except possibly the
last scored below `pass_threshold`, the loop left methods unconsumed only
because the last collected result reached `pass_threshold`, and the
unconsumed methods are a suffix of the input list. -/
theorem pipelineLoop_stop (run : String → Option MethodResult) (pt : ℚ) :
    ∀ (ms : List String) (results : List MethodResult) (cs : ℚ) (fis : List String),
      (∀ r ∈ results, r.confidence < pt) →
      (∀ r ∈ (pipelineLoop run pt ms results cs fis).results.dropLast, r.confidence < pt) ∧
      ((pipelineLoop run pt ms results cs fis).remaining ≠ [] →
        ∃ r, (pipelineLoop run pt ms results cs fis).results.getLast? = some r ∧
          pt ≤ r.confidence) ∧
      (∃ p, p ++ (pipelineLoop run pt ms results cs fis).remaining = ms) := by
  intro ms
  induction ms with
  | nil =>
    intro results cs fis h
    exact ⟨fun r hr => h r (List.dropLast_subset _ hr), fun hrem => absurd rfl hrem, ⟨[], rfl⟩⟩
  | cons m rest ih =>
    intro results cs fis h
    simp only [pipelineLoop]
    cases hr : run m with
    | none =>
      obtain ⟨h1, h2, p, hp⟩ := ih results cs fis h
      exact ⟨h1, h2, ⟨m :: p, by simp [hp]⟩⟩
    | some r =>
      by_cases hc : r.confidence ≥ pt
      · simp only [if_pos hc]
        refine ⟨?_, ?_, ⟨[m], rfl⟩⟩
        · intro x hx
          rw [List.dropLast_concat] at hx
          exact h x hx
        · intro _
          exact ⟨r, List.getLast?_concat _, hc⟩
      · simp only [if_neg hc]
        have h' : ∀ x ∈ results ++ [r], x.confidence < pt := by
          intro x hx
          rcases List.mem_append.mp hx with hx | hx
          · exact h x hx
          · simp only [List.mem_singleton] at hx
            subst hx
            exact lt_of_not_ge hc
        obtain ⟨h1, h2, p, hp⟩ := ih (results ++ [r]) _ _ h'
        exact ⟨h1, h2, ⟨m :: p, by simp [hp]⟩⟩

/-- One loop iteration in which the method produced no result. -/
theorem pipelineLoop_cons_none (run : String → Option MethodResult) (pt : ℚ) (m : String)
    (rest : List String) (results : List MethodResult) (cs : ℚ) (fis : List String)
    (h : run m = none) :
    pipelineLoop run pt (m :: rest) results cs fis = pipelineLoop run pt rest results cs fis := by
  simp [pipelineLoop, h]

/-- One loop iteration in which the method's confidence reached the pass
threshold, so the loop breaks. -/
theorem pipelineLoop_cons_break (run : String → Option MethodResult) (pt : ℚ) (m : String)
    (rest : List String) (results : List MethodResult) (cs : ℚ) (fis : List String)
    (r : MethodResult) (h : run m = some r) (hc : r.confidence ≥ pt) :
    pipelineLoop run pt (m :: rest) results cs fis =
      ⟨results ++ [r], cs + r.confidence, fis ++ r.fraud_indicators, rest⟩ := by
  simp [pipelineLoop, h, hc]

/-- One loop iteration in which the method's confidence stayed below the
pass threshold, so the loop continues. -/
theorem pipelineLoop_cons_continue (run : String → Option MethodResult) (pt : ℚ) (m : String)
    (rest : List String) (results : List MethodResult) (cs : ℚ) (fis : List String)
    (r : MethodResult) (h : run m = some r) (hc : ¬ r.confidence ≥ pt) :
    pipelineLoop run pt (m :: rest) results cs fis =
      pipelineLoop run pt rest (results ++ [r]) (cs + r.confidence)
        (fis ++ r.fraud_indicators) := by
  simp [pipelineLoop, h, hc]

/-- Concrete run of the two-method rule: `deterministic` scores 0.9 ≥ 0.8, so
the loop breaks at once and `tokenized` is left unconsumed. -/
theorem pipelineLoop_twoMethods_eval :
    pipelineLoop runTwoMethods ruleTwoMethods.pass_threshold
      ruleTwoMethods.verification_methods [] 0 [] =
      ⟨[⟨9/10, []⟩], 9/10, [], ["tokenized"]⟩ := by
  show pipelineLoop runTwoMethods (4/5) ["deterministic", "tokenized"] [] 0 [] = _
  rw [pipelineLoop_cons_break runTwoMethods (4/5) "deterministic" ["tokenized"] [] 0 []
    ⟨9/10, []⟩ rfl (by norm_num)]
  norm_num

/-- Concrete run of the three-method rule: `a` scores 0 (continue), `b`
scores 0.9 ≥ 0.8 (break), `c` is left unconsumed. -/
theorem pipelineLoop_threeMethods_eval :
    pipelineLoop runThreeMethods ruleThreeMethods.pass_threshold
      ruleThreeMethods.verification_methods [] 0 [] =
      ⟨[⟨0, []⟩, ⟨9/10, []⟩], 9/10, [], ["c"]⟩ := by
  show pipelineLoop runThreeMethods (4/5) ["a", "b", "c"] [] 0 [] = _
  rw [pipelineLoop_cons_continue runThreeMethods (4/5) "a" ["b", "c"] [] 0 []
    ⟨0, []⟩ rfl (by norm_num)]
  norm_num
  rw [pipelineLoop_cons_break runThreeMethods (4/5) "b" ["c"] [⟨0, []⟩] 0 []
    ⟨9/10, []⟩ rfl (by norm_num)]
  norm_num

/-! ## Claim theorems -/

/-- C1: the claim asserts every written ledger entry satisfies
`balance_after = balance_before + amount`, never negative, forming a
replayable prefix-sum chain — including the campaign fund path's `hold`
entry. The fund path falsifies it: funding a 300-budget campaign from
balance 500 writes a hold entry with `amount = +300`, `balance_before =
500`, `balance_after = 200`, so `balance_after ≠ balance_before + amount`,
the chain predicate fails, and replaying the amounts yields 800 while the
cached balance is 200. -/
theorem c1_fund_hold_entry_violates_prefix_sum_chain :
    fund true ⟨500, []⟩ ⟨"c1", "Launch", "draft", 300, 0⟩ =
      .ok (⟨200, [c1_hold_entry]⟩, ⟨"c1", "Launch", "active", 300, 300⟩, c1_hold_entry) ∧
    c1_hold_entry.balance_after ≠ c1_hold_entry.balance_before + c1_hold_entry.amount ∧
    chainFrom 500 [c1_hold_entry] = false ∧
    replay 500 [c1_hold_entry] ≠ (⟨200, [c1_hold_entry]⟩ : WalletState).wallet_balance := by
  decide

/-- C2 counterexample: the claim asserts a duplicate reference with an
identical amount writes no new entry. Crediting job 42's reward twice
through `_process_approved_job` writes two entries with the same reference
`job_completion_42` and doubles the balance. -/
theorem c2_duplicate_reference_double_credits :
    (process_approved_job (process_approved_job ⟨0, []⟩ "42" 50) "42" 50).entries.length = 2 ∧
    (process_approved_job (process_approved_job ⟨0, []⟩ "42" 50) "42" 50).wallet_balance = 100 ∧
    ((process_approved_job (process_approved_job ⟨0, []⟩ "42" 50) "42" 50).entries.map
        LedgerEntry.reference) = ["job_completion_42", "job_completion_42"] := by
  decide

/-- C2 (amended): the ledger create operation has no reference-based
idempotency — two calls with the same reference and amount (both within
balance) write two entries and apply the amount twice. -/
theorem c2_ledger_create_not_idempotent :
    ∀ (s : WalletState) (t : String) (a : Int) (r d : String),
      0 ≤ s.wallet_balance + a → 0 ≤ s.wallet_balance + a + a →
      (create_transaction (create_transaction s t a r d).state t a r d).state.entries.length
          = s.entries.length + 2 ∧
      (create_transaction (create_transaction s t a r d).state t a r d).state.wallet_balance
          = s.wallet_balance + a + a := by
  intro s t a r d h1 h2
  have hn1 : ¬ (s.wallet_balance + a < 0) := not_lt.mpr h1
  have hn2 : ¬ (s.wallet_balance + a + a < 0) := not_lt.mpr h2
  simp [create_transaction, hn1, hn2]

/-- C2 witness: the non-idempotence theorem applied to a concrete double
credit of 50 from balance 0. -/
theorem c2_witness :
    0 ≤ (⟨0, []⟩ : WalletState).wallet_balance + 50 ∧
    0 ≤ (⟨0, []⟩ : WalletState).wallet_balance + 50 + 50 ∧
    (create_transaction (create_transaction ⟨0, []⟩ "credit" 50 "job_completion_42" "pay").state
        "credit" 50 "job_completion_42" "pay").state.entries.length
      = (⟨0, []⟩ : WalletState).entries.length + 2 ∧
    (create_transaction (create_transaction ⟨0, []⟩ "credit" 50 "job_completion_42" "pay").state
        "credit" 50 "job_completion_42" "pay").state.wallet_balance
      = (⟨0, []⟩ : WalletState).wallet_balance + 50 + 50 :=
  ⟨by decide, by decide,
    (c2_ledger_create_not_idempotent ⟨0, []⟩ "credit" 50 "job_completion_42" "pay"
      (by decide) (by decide)).1,
    (c2_ledger_create_not_idempotent ⟨0, []⟩ "credit" 50 "job_completion_42" "pay"
      (by decide) (by decide)).2⟩

/-- C3: the claim asserts a never-debited pending withdrawal that is
failed gains no refund entry. The code refunds unconditionally: failing a
pending withdrawal of 50 whose user ledger holds no debit entry at all
succeeds and writes a `refund` entry of `+50`, raising the balance from
100 to 150. -/
theorem c3_fail_refunds_never_debited_pending_withdrawal :
    (Withdrawal.fail ⟨"w1", "pending", 50, "", "", ""⟩ ⟨100, []⟩ "bank rejected").error
      = none ∧
    (Withdrawal.fail ⟨"w1", "pending", 50, "", "", ""⟩ ⟨100, []⟩
      "bank rejected").withdrawal.status = "failed" ∧
    (Withdrawal.fail ⟨"w1", "pending", 50, "", "", ""⟩ ⟨100, []⟩ "bank rejected").wallet.entries
      = [⟨"refund", 50, 100, 150, "withdrawal_refund_w1", "Refund for failed withdrawal w1"⟩] ∧
    (Withdrawal.fail ⟨"w1", "pending", 50, "", "", ""⟩ ⟨100, []⟩
      "bank rejected").wallet.wallet_balance = 150 := by
  decide

/-- C7: the ledger create operation raises the insufficient-balance error
exactly when `balance_before + amount < 0`, and in that case writes no
entry and leaves the state untouched; otherwise it appends one entry and
advances the cached balance by the amount. -/
theorem c7_insufficient_balance_rejected_atomically :
    ∀ (s : WalletState) (t : String) (a : Int) (r d : String),
      ((create_transaction s t a r d).error.isSome ↔ s.wallet_balance + a < 0) ∧
      (s.wallet_balance + a < 0 →
        (create_transaction s t a r d).state = s ∧
        (create_transaction s t a r d).entry = none ∧
        (create_transaction s t a r d).error = some "Insufficient wallet balance") ∧
      (0 ≤ s.wallet_balance + a →
        (create_transaction s t a r d).error = none ∧
        ∃ e, (create_transaction s t a r d).entry = some e ∧
          e.balance_before = s.wallet_balance ∧
          e.balance_after = s.wallet_balance + a ∧
          (create_transaction s t a r d).state.entries = s.entries ++ [e] ∧
          (create_transaction s t a r d).state.wallet_balance = s.wallet_balance + a) := by
  intro s t a r d
  by_cases h : s.wallet_balance + a < 0
  · refine ⟨by simp [create_transaction, h], fun _ => by simp [create_transaction, h],
      fun h0 => absurd h (not_lt.mpr h0)⟩
  · refine ⟨by simp [create_transaction, h], fun hlt => absurd hlt h,
      fun _ => ⟨by simp [create_transaction, h], ?_⟩⟩
    refine ⟨⟨t, a, s.wallet_balance, s.wallet_balance + a, r, d⟩, ?_, rfl, rfl, ?_, ?_⟩
    · simp [create_transaction, h]
    · simp [create_transaction, h]
    · simp [create_transaction, h]

/-- C7 witness: a debit of 5 from balance 0 is rejected with no state
change, by the theorem applied at that input. -/
theorem c7_witness :
    ((⟨0, []⟩ : WalletState).wallet_balance + (-5) < 0) ∧
    (create_transaction ⟨0, []⟩ "debit" (-5) "w" "d").state = ⟨0, []⟩ ∧
    (create_transaction ⟨0, []⟩ "debit" (-5) "w" "d").entry = none ∧
    (create_transaction ⟨0, []⟩ "debit" (-5) "w" "d").error
      = some "Insufficient wallet balance" :=
  ⟨by decide,
    (c7_insufficient_balance_rejected_atomically ⟨0, []⟩ "debit" (-5) "w" "d").2.1 (by decide)⟩

/-- C8 counterexample: the claim asserts a repeated `complete` call with
the same external payout id is an idempotent no-op. The first call
completes the withdrawal; the repeat call raises instead of succeeding. -/
theorem c8_repeat_complete_raises :
    Withdrawal.complete ⟨"w1", "processing", 50, "", "", ""⟩ (some "po_1") (some "tx_1") =
      .ok ⟨"w1", "completed", 50, "", "po_1", "tx_1"⟩ ∧
    Withdrawal.complete ⟨"w1", "completed", 50, "", "po_1", "tx_1"⟩ (some "po_1") (some "tx_1") =
      .error "Withdrawal must be processing to complete" := by
  decide

/-- C8 (amended): `complete` succeeds exactly from `processing`, the
resulting state is `completed`, and any repeated `complete` call on the
result raises the processing-required error rather than succeeding as a
no-op. -/
theorem c8_complete_only_from_processing :
    ∀ (w : Withdrawal) (p t : Option String),
      (w.status = "processing" →
        Withdrawal.complete w p t =
          .ok { w with status := "completed", payment_provider_id := p.getD "",
                       transaction_id := t.getD "" }) ∧
      (w.status ≠ "processing" →
        Withdrawal.complete w p t = .error "Withdrawal must be processing to complete") ∧
      (∀ w' : Withdrawal, Withdrawal.complete w p t = .ok w' →
        ∀ p2 t2 : Option String,
          Withdrawal.complete w' p2 t2 = .error "Withdrawal must be processing to complete") := by
  intro w p t
  refine ⟨fun h => by simp [Withdrawal.complete, h], fun h => by simp [Withdrawal.complete, h], ?_⟩
  intro w' h p2 t2
  by_cases hs : w.status = "processing"
  · simp only [Withdrawal.complete, hs, ne_eq, not_true_eq_false, if_false, Except.ok.injEq] at h
    simp [Withdrawal.complete, ← h]
  · simp [Withdrawal.complete, hs] at h

/-- C8 witness: the amended theorem applied to a processing withdrawal
with payout id `po_1`. -/
theorem c8_witness :
    (⟨"w1", "processing", 50, "", "", ""⟩ : Withdrawal).status = "processing" ∧
    Withdrawal.complete ⟨"w1", "processing", 50, "", "", ""⟩ (some "po_1") (some "tx_1") =
      .ok { (⟨"w1", "processing", 50, "", "", ""⟩ : Withdrawal) with
            status := "completed", payment_provider_id := (some "po_1").getD "",
            transaction_id := (some "tx_1").getD "" } :=
  ⟨rfl, (c8_complete_only_from_processing ⟨"w1", "processing", 50, "", "", ""⟩
    (some "po_1") (some "tx_1")).1 rfl⟩

/-- C4: for every pipeline run that collected at least one method result,
the final overall confidence is the arithmetic mean of the collected
confidences and the decision is exactly the threshold function of that
confidence; and every session persisted by `verify_job_attempt` stores a
decision consistent with its stored confidence and the rule used. -/
theorem c4_confidence_is_mean_and_decision_thresholds :
    (∀ (rule : VerificationRule) (run : String → Option MethodResult),
      pipelineResults rule run ≠ [] →
        (run_verification_pipeline rule run).confidence
            = specMean ((pipelineResults rule run).map MethodResult.confidence) ∧
        (run_verification_pipeline rule run).status
            = specDecision rule (run_verification_pipeline rule run).confidence) ∧
    (∀ (env : VerifyEnv) (rs : VerificationRule × VerificationSession),
      verify_session env = some rs → rs.2.status = specDecision rs.1 rs.2.confidence) := by
  constructor
  · intro rule run hne
    have hsum := pipelineLoop_confidence_sum run rule.pass_threshold
      rule.verification_methods [] 0 [] (by simp)
    have hE : (pipelineLoop run rule.pass_threshold rule.verification_methods [] 0
        []).results.isEmpty = false := by
      rw [List.isEmpty_eq_false]
      exact hne
    constructor
    · simp only [run_verification_pipeline, pipelineResults, hE, Bool.false_eq_true,
        if_false, specMean]
      rw [hsum]
      simp
    · rfl
  · intro env rs h
    cases hrl : env.rule_lookup with
    | error e => simp [verify_session, hrl] at h
    | ok o =>
      cases o with
      | none => simp [verify_session, hrl] at h
      | some rule =>
        cases hsc : env.session_create with
        | error e => simp [verify_session, hrl, hsc] at h
        | ok u =>
          cases hss : env.session_save with
          | error e => simp [verify_session, hrl, hsc, hss] at h
          | ok u2 =>
            simp only [verify_session, hrl, hsc, hss, Option.some.injEq] at h
            subst h
            rfl

/-- C4 witness: the short-circuit scenario rule (pass 0.8, methods scoring
0.9 then 0.5) collects one result; the theorem applied there gives the
mean and the threshold decision. -/
theorem c4_witness :
    pipelineResults ruleTwoMethods runTwoMethods ≠ [] ∧
    (run_verification_pipeline ruleTwoMethods runTwoMethods).confidence
        = specMean ((pipelineResults ruleTwoMethods runTwoMethods).map MethodResult.confidence) ∧
    (run_verification_pipeline ruleTwoMethods runTwoMethods).status
        = specDecision ruleTwoMethods (run_verification_pipeline ruleTwoMethods
            runTwoMethods).confidence :=
  ⟨by simp [pipelineResults, pipelineLoop_twoMethods_eval],
    (c4_confidence_is_mean_and_decision_thresholds.1 ruleTwoMethods runTwoMethods
      (by simp [pipelineResults, pipelineLoop_twoMethods_eval])).1,
    (c4_confidence_is_mean_and_decision_thresholds.1 ruleTwoMethods runTwoMethods
      (by simp [pipelineResults, pipelineLoop_twoMethods_eval])).2⟩

/-- C5 counterexample: the claim asserts the loop stops early exactly when
the running mean of the collected confidences reaches the pass threshold.
With methods scoring 0, 0.9, 0.3 under pass threshold 0.8, the loop stops
after the second method (individual confidence 0.9 ≥ 0.8) leaving method
`c` unconsumed, although the running mean never reached 0.8 at any point
(0 after one method, 0.45 after two). -/
theorem c5_stops_although_running_mean_below_pass :
    (pipelineLoop runThreeMethods ruleThreeMethods.pass_threshold
        ruleThreeMethods.verification_methods [] 0 []).remaining = ["c"] ∧
    ((pipelineLoop runThreeMethods ruleThreeMethods.pass_threshold
        ruleThreeMethods.verification_methods [] 0 []).results.map MethodResult.confidence)
      = [0, 9/10] ∧
    specMean [(0 : ℚ)] < ruleThreeMethods.pass_threshold ∧
    specMean [(0 : ℚ), 9/10] < ruleThreeMethods.pass_threshold := by
  refine ⟨?_, ?_, ?_, ?_⟩
  · simp [pipelineLoop_threeMethods_eval]
  · simp [pipelineLoop_threeMethods_eval]
  · norm_num [specMean, ruleThreeMethods]
  · norm_num [specMean, ruleThreeMethods]

/-- C5 (amended): methods run in rule order and the loop stops early
exactly when the current method's own confidence reaches the pass
threshold: every collected result before the last scored below the
threshold, an early stop implies the last collected result reached it,
and the unconsumed methods are a suffix of the configured order (so
methods after the stopping point are never run). -/
theorem c5_short_circuit_on_individual_confidence :
    ∀ (rule : VerificationRule) (run : String → Option MethodResult),
      (∀ r ∈ (pipelineLoop run rule.pass_threshold rule.verification_methods []
          0 []).results.dropLast, r.confidence < rule.pass_threshold) ∧
      ((pipelineLoop run rule.pass_threshold rule.verification_methods [] 0 []).remaining ≠ [] →
        ∃ r, (pipelineLoop run rule.pass_threshold rule.verification_methods []
            0 []).results.getLast? = some r ∧ rule.pass_threshold ≤ r.confidence) ∧
      (∃ p, p ++ (pipelineLoop run rule.pass_threshold rule.verification_methods []
          0 []).remaining = rule.verification_methods) :=
  fun rule run =>
    pipelineLoop_stop run rule.pass_threshold rule.verification_methods [] 0 [] (by simp)

/-- C5 witness: the amended theorem applied to the three-method rule whose
run stops early after the 0.9-confidence method. -/
theorem c5_witness :
    (pipelineLoop runThreeMethods ruleThreeMethods.pass_threshold
        ruleThreeMethods.verification_methods [] 0 []).remaining ≠ [] ∧
    (∃ r, (pipelineLoop runThreeMethods ruleThreeMethods.pass_threshold
        ruleThreeMethods.verification_methods [] 0 []).results.getLast? = some r ∧
      ruleThreeMethods.pass_threshold ≤ r.confidence) :=
  ⟨by simp [pipelineLoop_threeMethods_eval],
    (c5_short_circuit_on_individual_confidence ruleThreeMethods runThreeMethods).2.1
      (by simp [pipelineLoop_threeMethods_eval])⟩

/-- C6 counterexample: the claim asserts an all-methods-failed run decides
`manual_review` and can never decide `verified`. With the standard
positive thresholds (0.8 / 0.6) an all-failed run is decided `rejected`;
with thresholds 0 / 0 (accepted by the write-time ordering check, since
0 ≤ 0 ≤ 0) an all-failed run is decided `verified`. -/
theorem c6_all_failed_rejected_and_can_verify :
    (run_verification_pipeline ruleOneMethod runAllFail).status = "rejected" ∧
    (run_verification_pipeline ⟨["a"], 0, 0⟩ runAllFail).status = "verified" := by
  have h1 := pipelineLoop_all_none runAllFail ((4 : ℚ)/5) ["a"] [] 0 [] (fun _ _ => rfl)
  have h2 := pipelineLoop_all_none runAllFail (0 : ℚ) ["a"] [] 0 [] (fun _ _ => rfl)
  constructor
  · norm_num [run_verification_pipeline, ruleOneMethod, h1]
  · norm_num [run_verification_pipeline, h2]

/-- C6 (amended): when every configured method fails to produce a result,
the pipeline collects nothing, the overall confidence is 0, and the
decision is the threshold function applied to 0 — `rejected` whenever the
manual-review threshold is positive, `manual_review` only when it is ≤ 0
below a positive pass threshold, and `verified` when the pass threshold
is ≤ 0. -/
theorem c6_all_methods_failed_decision :
    ∀ (rule : VerificationRule) (run : String → Option MethodResult),
      (∀ m ∈ rule.verification_methods, run m = none) →
      run_verification_pipeline rule run = ⟨specDecision rule 0, 0, []⟩ := by
  intro rule run h
  have hloop := pipelineLoop_all_none run rule.pass_threshold rule.verification_methods [] 0 [] h
  simp [run_verification_pipeline, hloop, specDecision]

/-- C6 witness: the amended theorem applied to the one-method rule with
adapters that always fail, yielding decision `rejected` (= the threshold
function at 0 for thresholds 0.8 / 0.6). -/
theorem c6_witness :
    run_verification_pipeline ruleOneMethod runAllFail =
      ⟨specDecision ruleOneMethod 0, 0, []⟩ :=
  c6_all_methods_failed_decision ruleOneMethod runAllFail (by decide)

/-- C9: the threshold-ordering check as written in
`validate_thresholds` rejects a payload whose thresholds violate
`fail ≤ manual_review ≤ pass` (here pass 0.1, manual 0.5, fail 0.9) and
accepts ordered payloads, including the all-defaults payload. The code
bug is in the wiring, not this logic: no serializer field is named
`thresholds`, so the framework never invokes the method, and the stored
model has no pass/manual-review/fail threshold columns at all. -/
theorem c9_threshold_validator_logic :
    validate_thresholds (some (1/10)) (some (1/2)) (some (9/10)) =
      .error "Thresholds must be ordered: fail_threshold <= manual_review_threshold <= pass_threshold" ∧
    validate_thresholds none none none = .ok (none, none, none) ∧
    validate_thresholds (some (9/10)) (some (1/2)) (some (1/10)) =
      .ok (some (9/10), some (1/2), some (1/10)) := by
  refine ⟨?_, ?_, ?_⟩ <;> norm_num [validate_thresholds]

/-- C10: `verify_job_attempt` is total at its boundary — whenever no
active rule matches or any internal step raises, it returns the failed
dictionary with confidence 0 instead of propagating; when everything
succeeds it returns the pipeline's status and confidence. -/
theorem c10_verify_job_attempt_total_boundary :
    ∀ env : VerifyEnv,
      ((env.rule_lookup = .ok none ∨ (∃ e, env.rule_lookup = .error e) ∨
        (∃ e, env.session_create = .error e) ∨ (∃ e, env.session_save = .error e) ∨
        (∃ e, env.attempt_save = .error e)) →
        (verify_job_attempt env).status = "failed" ∧ (verify_job_attempt env).confidence = 0) ∧
      (∀ rule : VerificationRule, env.rule_lookup = .ok (some rule) →
        env.session_create = .ok () → env.session_save = .ok () → env.attempt_save = .ok () →
        verify_job_attempt env = ⟨(run_verification_pipeline rule env.run).status,
          (run_verification_pipeline rule env.run).confidence, ""⟩) := by
  intro env
  constructor
  · intro h
    cases hrl : env.rule_lookup with
    | error e => simp [verify_job_attempt, hrl, failedResult]
    | ok o =>
      cases o with
      | none => simp [verify_job_attempt, hrl, failedResult]
      | some rule =>
        cases hsc : env.session_create with
        | error e => simp [verify_job_attempt, hrl, hsc, failedResult]
        | ok u =>
          cases hss : env.session_save with
          | error e => simp [verify_job_attempt, hrl, hsc, hss, failedResult]
          | ok u2 =>
            cases has : env.attempt_save with
            | error e => simp [verify_job_attempt, hrl, hsc, hss, has, failedResult]
            | ok u3 =>
              exfalso
              rcases h with h | ⟨e, h⟩ | ⟨e, h⟩ | ⟨e, h⟩ | ⟨e, h⟩
              · rw [hrl] at h; simp at h
              · rw [hrl] at h; simp at h
              · rw [hsc] at h; simp at h
              · rw [hss] at h; simp at h
              · rw [has] at h; simp at h
  · intro rule hrl hsc hss has
    simp [verify_job_attempt, hrl, hsc, hss, has]

/-- C10 witness: in an environment with no matching active rule, the
theorem yields the failed result with confidence 0. -/
theorem c10_witness :
    (envNoRule.rule_lookup = .ok none ∨ (∃ e, envNoRule.rule_lookup = .error e) ∨
      (∃ e, envNoRule.session_create = .error e) ∨ (∃ e, envNoRule.session_save = .error e) ∨
      (∃ e, envNoRule.attempt_save = .error e)) ∧
    (verify_job_attempt envNoRule).status = "failed" ∧
    (verify_job_attempt envNoRule).confidence = 0 :=
  ⟨Or.inl rfl, (c10_verify_job_attempt_total_boundary envNoRule).1 (Or.inl rfl)⟩

end Engagement
